import Mathlib

/-!
Verification development for the ableton-mcp repository.

The repository ships the MCP command-line front end (`MCP_Server/cli.py`)
and the test suite for the Ableton Remote Script
(`AbletonMCP_Remote_Script`).  The Remote Script itself — holding
`_set_eq_global`, `_frequency_to_normalized`, `_normalized_to_frequency`,
`_q_to_normalized`, `_normalized_to_q` and `_linear_to_db` — is not part
of the source tree here, so those operations are modelled from the
specification (sections 4.1 and 4.2) and pinned by the behaviour the
in-tree tests demand.  The standalone function `proposed_q_to_norm` of
`tests/test_eq_q_conversion_mock.py` is in the source tree and is
embedded directly from it.
-/

/-! ## Parameter Resolver: EQ global mode -/

/-- Modelled from the spec: a device parameter as the Resolver sees it
(`tests/test_eq_mode.py` builds them with a `name`, an ordered list of
string choices `value_items`, and an integer `value` index). -/
structure EqParam where
  name : String
  value_items : List String
  value : Nat
deriving Repr, DecidableEq

/-- Modelled from the spec: the `global_parameters` object of the
`set_eq_global` success result; the claims only inspect its `mode`
field. -/
structure GlobalParameters where
  mode : String
deriving Repr, DecidableEq

/-- Modelled from the spec: a device as the Resolver sees it — an
optional directly settable integer-valued global-mode property and an
ordered parameter list. -/
structure EqDevice where
  global_mode : Option Nat
  parameters : List EqParam
deriving Repr, DecidableEq

/-- The exact integer code table of spec section 4.2. -/
def mode_table : List (String × Nat) := [("Stereo", 0), ("L/R", 1), ("M/S", 2)]

/-- Index of a label in an ordered list of string choices, or `none`
when the label does not occur. -/
def index_of_label (mode : String) : List String → Option Nat
  | [] => none
  | s :: rest => if s = mode then some 0 else (index_of_label mode rest).map (· + 1)

/-- Modelled from the spec: walk the device's parameter list for the
first parameter named exactly "Mode", resolve the requested label to its
index in that parameter's ordered choice list and write the index.
Returns the updated list and the written index, or `none` when no such
write happened. -/
def set_mode_in_params (mode : String) : List EqParam → Option (List EqParam × Nat)
  | [] => none
  | p :: rest =>
    if p.name = "Mode" then
      (index_of_label mode p.value_items).map (fun i => ({ p with value := i } :: rest, i))
    else
      (set_mode_in_params mode rest).map (fun r => (p :: r.1, r.2))

/-- Modelled from the spec: `_set_eq_global` restricted to the mode
write on one device (the Remote Script is not under the source tree).
Resolution order of spec section 4.2: the direct integer property
through the code table first, then the "Mode" choice-parameter
fallback, else a `ConfigurationError` carrying the message
"Mode parameter not found".  On success the applied label is returned
as the `global_parameters.mode` field. -/
def set_eq_global (d : EqDevice) (mode : String) : Except String (EqDevice × GlobalParameters) :=
  match d.global_mode with
  | some _ =>
    match mode_table.lookup mode with
    | some code => .ok ({ d with global_mode := some code }, ⟨mode⟩)
    | none => .error ("Invalid mode: " ++ mode)
  | none =>
    match set_mode_in_params mode d.parameters with
    | some r => .ok ({ d with parameters := r.1 }, ⟨mode⟩)
    | none => .error "Mode parameter not found"

/-! ## Unit Converter -/

/-- Modelled from the spec: `normalizedToFrequency(norm, minFreq, maxFreq)`
returns `minFreq * (maxFreq/minFreq)^norm` (spec section 4.1; defaults
are `minFreq = 10.0`, `maxFreq = 22000.0`). -/
noncomputable def normalized_to_frequency (norm min_freq max_freq : ℝ) : ℝ :=
  min_freq * (max_freq / min_freq) ^ norm

/-- Modelled from the spec: `frequencyToNormalized` is the exact inverse,
`log(freq/minFreq) / log(maxFreq/minFreq)`, with `freq` clamped to
`[minFreq, maxFreq]` before the computation. -/
noncomputable def frequency_to_normalized (freq min_freq max_freq : ℝ) : ℝ :=
  Real.log (max min_freq (min max_freq freq) / min_freq) / Real.log (max_freq / min_freq)

/-- Embedded from `tests/test_eq_q_conversion_mock.py`
(`proposed_q_to_norm`): clamp to `[0.1, 18.0]` by the two sequential
guards, then return
`(log10 q - log10 0.1) / (log10 18.0 - log10 0.1)`.  The Remote
Script's `_q_to_normalized` uses the identical scheme per spec
section 4.1. -/
noncomputable def proposed_q_to_norm (q : ℝ) : ℝ :=
  let q1 := if q < 0.1 then (0.1 : ℝ) else q
  let q2 := if q1 > 18.0 then (18.0 : ℝ) else q1
  (Real.logb 10 q2 - Real.logb 10 0.1) / (Real.logb 10 18.0 - Real.logb 10 0.1)

/-- Modelled from the spec: `normalizedToQ`, the identical log-mapping
scheme over the fixed bounds `[0.1, 18.0]`, inverse of
`proposed_q_to_norm` on the domain. -/
noncomputable def normalized_to_q (norm : ℝ) : ℝ :=
  0.1 * (18.0 / 0.1) ^ norm

/-- Modelled from the spec: `_linear_to_db`.  The spec pins the silence
branch (anything at or below `1e-8` maps to negative infinity through an
explicit branch), the unity-gain reference `0.85 ↦ 0 dB`, the headroom
ceiling `1.0 ↦ 6 dB`, and the formula `20 * log10(linear/0.85)`, which
`tests/test_linear_to_db.py` checks below the reference point.  Since
that formula sends `1.0` to about `1.41 dB`, the region at or above
`0.85` is modelled as the affine map through the two pinned reference
points, `(linear - 0.85) / 0.15 * 6`, which agrees with the log formula
at `0.85`. -/
noncomputable def linear_to_db (linear : ℝ) : EReal :=
  if linear ≤ 1e-8 then ⊥
  else if 0.85 ≤ linear then (((linear - 0.85) / 0.15 * 6 : ℝ) : EReal)
  else ((20 * Real.logb 10 (linear / 0.85) : ℝ) : EReal)

example : set_eq_global ⟨some 0, []⟩ "M/S" = .ok (⟨some 2, []⟩, ⟨"M/S"⟩) := rfl

example :
    set_eq_global ⟨none, [⟨"Mode", ["Stereo", "L/R", "M/S"], 0⟩]⟩ "L/R" =
      .ok (⟨none, [⟨"Mode", ["Stereo", "L/R", "M/S"], 1⟩]⟩, ⟨"L/R"⟩) := rfl

example : set_eq_global ⟨none, []⟩ "Stereo" = .error "Mode parameter not found" := rfl

/-! ## Resolver lemmas -/

lemma set_eq_global_direct (d : EqDevice) (v : Nat) (label : String) (code : Nat)
    (hd : d.global_mode = some v) (hl : mode_table.lookup label = some code) :
    set_eq_global d label = .ok ({ d with global_mode := some code }, ⟨label⟩) := by
  obtain ⟨gm, qs⟩ := d
  cases hd
  simp [set_eq_global, hl]

lemma set_eq_global_fallback (d : EqDevice) (label : String) (ps : List EqParam) (i : Nat)
    (hd : d.global_mode = none) (hp : set_mode_in_params label d.parameters = some (ps, i)) :
    set_eq_global d label = .ok ({ d with parameters := ps }, ⟨label⟩) := by
  obtain ⟨gm, qs⟩ := d
  cases hd
  simp only [set_eq_global] at hp ⊢
  rw [hp]

lemma set_mode_in_params_append (label : String) (pre : List EqParam) (p : EqParam)
    (post : List EqParam) (i : Nat)
    (hpre : ∀ q ∈ pre, q.name ≠ "Mode") (hp : p.name = "Mode")
    (hi : index_of_label label p.value_items = some i) :
    set_mode_in_params label (pre ++ p :: post) =
      some (pre ++ { p with value := i } :: post, i) := by
  induction pre with
  | nil => simp [set_mode_in_params, hp, hi]
  | cons q qs ih =>
      have hq : q.name ≠ "Mode" := hpre q (by simp)
      simp [set_mode_in_params, hq, ih (fun r hr => hpre r (by simp [hr]))]

lemma set_mode_in_params_none (label : String) (ps : List EqParam)
    (h : ∀ q ∈ ps, q.name ≠ "Mode") :
    set_mode_in_params label ps = none := by
  induction ps with
  | nil => rfl
  | cons q qs ih =>
      simp [set_mode_in_params, h q (by simp), ih (fun r hr => h r (by simp [hr]))]

lemma set_eq_global_ok_mode (d : EqDevice) (label : String) (r : EqDevice × GlobalParameters)
    (h : set_eq_global d label = .ok r) : r.2 = ⟨label⟩ := by
  obtain ⟨gm, qs⟩ := d
  cases gm with
  | some v =>
      cases hl : mode_table.lookup label with
      | some code =>
          simp [set_eq_global, hl] at h
          subst h
          rfl
      | none => simp [set_eq_global, hl] at h
  | none =>
      cases hm : set_mode_in_params label qs with
      | some s =>
          simp [set_eq_global, hm] at h
          subst h
          rfl
      | none => simp [set_eq_global, hm] at h

/-- C1: for every device exposing a directly settable integer-valued
global-mode property, setting the global mode with label "M/S" writes
integer 2 to that property under the exact code table
Stereo ↦ 0, L/R ↦ 1, M/S ↦ 2, the returned `global_parameters.mode`
equals the requested label, and analogously "Stereo" writes 0 and
"L/R" writes 1. -/
theorem c1_direct_mode_code_table (d : EqDevice) (v : Nat)
    (hd : d.global_mode = some v) :
    set_eq_global d "M/S" = .ok ({ d with global_mode := some 2 }, ⟨"M/S"⟩) ∧
    set_eq_global d "Stereo" = .ok ({ d with global_mode := some 0 }, ⟨"Stereo"⟩) ∧
    set_eq_global d "L/R" = .ok ({ d with global_mode := some 1 }, ⟨"L/R"⟩) ∧
    mode_table = [("Stereo", 0), ("L/R", 1), ("M/S", 2)] :=
  ⟨set_eq_global_direct d v "M/S" 2 hd rfl,
   set_eq_global_direct d v "Stereo" 0 hd rfl,
   set_eq_global_direct d v "L/R" 1 hd rfl, rfl⟩

theorem c1_witness :
    (⟨some 0, []⟩ : EqDevice).global_mode = some 0 ∧
    set_eq_global ⟨some 0, []⟩ "M/S" = .ok (⟨some 2, []⟩, ⟨"M/S"⟩) :=
  ⟨rfl, (c1_direct_mode_code_table ⟨some 0, []⟩ 0 rfl).1⟩

/-- C2: for every device lacking the direct global-mode property but
holding a parameter named exactly "Mode" with an ordered list of string
choices, setting a label in that list writes the label's index into the
parameter's value; and the externally observed `global_parameters.mode`
is identical on the direct-property path and on the fallback path for
the same requested label. -/
theorem c2_fallback_index_and_equal_result :
    (∀ (d : EqDevice) (pre : List EqParam) (p : EqParam) (post : List EqParam)
        (label : String) (i : Nat),
        d.global_mode = none →
        d.parameters = pre ++ p :: post →
        (∀ q ∈ pre, q.name ≠ "Mode") →
        p.name = "Mode" →
        index_of_label label p.value_items = some i →
        set_eq_global d label =
          .ok ({ d with parameters := pre ++ { p with value := i } :: post }, ⟨label⟩)) ∧
    (∀ (d1 d2 : EqDevice) (v : Nat) (label : String)
        (r1 r2 : EqDevice × GlobalParameters),
        d1.global_mode = some v → d2.global_mode = none →
        set_eq_global d1 label = .ok r1 → set_eq_global d2 label = .ok r2 →
        r1.2 = r2.2) := by
  constructor
  · intro d pre p post label i hd hps hpre hp hi
    have hm : set_mode_in_params label d.parameters =
        some (pre ++ { p with value := i } :: post, i) := by
      rw [hps]
      exact set_mode_in_params_append label pre p post i hpre hp hi
    exact set_eq_global_fallback d label _ i hd hm
  · intro d1 d2 v label r1 r2 _ _ h1 h2
    rw [set_eq_global_ok_mode d1 label r1 h1, set_eq_global_ok_mode d2 label r2 h2]

theorem c2_witness :
    ((⟨none, [⟨"Mode", ["Stereo", "L/R", "M/S"], 0⟩]⟩ : EqDevice).global_mode = none ∧
      set_eq_global ⟨none, [⟨"Mode", ["Stereo", "L/R", "M/S"], 0⟩]⟩ "L/R" =
        .ok (⟨none, [⟨"Mode", ["Stereo", "L/R", "M/S"], 1⟩]⟩, ⟨"L/R"⟩)) ∧
    (((⟨some 2, []⟩, ⟨"M/S"⟩) : EqDevice × GlobalParameters).2 =
      ((⟨none, [⟨"Mode", ["Stereo", "L/R", "M/S"], 2⟩]⟩, ⟨"M/S"⟩) :
        EqDevice × GlobalParameters).2) :=
  ⟨⟨rfl,
    c2_fallback_index_and_equal_result.1 ⟨none, [⟨"Mode", ["Stereo", "L/R", "M/S"], 0⟩]⟩
      [] ⟨"Mode", ["Stereo", "L/R", "M/S"], 0⟩ [] "L/R" 1 rfl rfl (by decide) rfl rfl⟩,
   c2_fallback_index_and_equal_result.2 ⟨some 0, []⟩
      ⟨none, [⟨"Mode", ["Stereo", "L/R", "M/S"], 0⟩]⟩ 0 "M/S"
      (⟨some 2, []⟩, ⟨"M/S"⟩) (⟨none, [⟨"Mode", ["Stereo", "L/R", "M/S"], 2⟩]⟩, ⟨"M/S"⟩)
      rfl rfl rfl rfl⟩

/-- C3: for every device with neither a direct global-mode property nor
a parameter named "Mode", setting the global mode fails with the
`ConfigurationError` message "Mode parameter not found" and no updated
device state is produced. -/
theorem c3_neither_path_fails (d : EqDevice) (label : String)
    (hd : d.global_mode = none)
    (hps : ∀ q ∈ d.parameters, q.name ≠ "Mode") :
    set_eq_global d label = .error "Mode parameter not found" ∧
    ∀ r : EqDevice × GlobalParameters, set_eq_global d label ≠ .ok r := by
  obtain ⟨gm, qs⟩ := d
  cases hd
  have h := set_mode_in_params_none label qs hps
  refine ⟨?_, ?_⟩
  · simp [set_eq_global, h]
  · intro r hr
    simp [set_eq_global, h] at hr

theorem c3_witness :
    (⟨none, [⟨"Gain", [], 0⟩]⟩ : EqDevice).global_mode = none ∧
    set_eq_global ⟨none, [⟨"Gain", [], 0⟩]⟩ "Stereo" = .error "Mode parameter not found" :=
  ⟨rfl, (c3_neither_path_fails ⟨none, [⟨"Gain", [], 0⟩]⟩ "Stereo" rfl (by decide)).1⟩

/-! ## Unit Converter lemmas -/

lemma log_ratio_pos {a b : ℝ} (ha : 0 < a) (hab : a < b) : 0 < Real.log (b / a) :=
  Real.log_pos ((one_lt_div ha).mpr hab)

lemma clamp_id {lo hi x : ℝ} (h1 : lo ≤ x) (h2 : x ≤ hi) : max lo (min hi x) = x := by
  rw [min_eq_right h2, max_eq_right h1]

lemma sqrt_between {a b : ℝ} (ha : 0 < a) (hab : a < b) :
    a ≤ Real.sqrt (a * b) ∧ Real.sqrt (a * b) ≤ b := by
  constructor
  · calc a = Real.sqrt (a * a) := (Real.sqrt_mul_self ha.le).symm
      _ ≤ Real.sqrt (a * b) := Real.sqrt_le_sqrt (by nlinarith)
  · calc Real.sqrt (a * b) ≤ Real.sqrt (b * b) := Real.sqrt_le_sqrt (by nlinarith)
      _ = b := Real.sqrt_mul_self (ha.trans hab).le

/-- C4: for every positive minFreq and larger maxFreq, normalizedToFrequency
follows the formula minFreq * (maxFreq/minFreq)^norm, sends 0 to minFreq
exactly and 1 to maxFreq exactly, and frequencyToNormalized sends minFreq
to 0, maxFreq to 1 and the geometric mean of the bounds to exactly 0.5. -/
theorem c4_frequency_mapping (min_freq max_freq : ℝ)
    (h0 : 0 < min_freq) (hlt : min_freq < max_freq) :
    (∀ norm : ℝ, normalized_to_frequency norm min_freq max_freq
        = min_freq * (max_freq / min_freq) ^ norm) ∧
    normalized_to_frequency 0 min_freq max_freq = min_freq ∧
    normalized_to_frequency 1 min_freq max_freq = max_freq ∧
    frequency_to_normalized min_freq min_freq max_freq = 0 ∧
    frequency_to_normalized max_freq min_freq max_freq = 1 ∧
    frequency_to_normalized (Real.sqrt (min_freq * max_freq)) min_freq max_freq = 0.5 := by
  have hmax : 0 < max_freq := h0.trans hlt
  have hden := log_ratio_pos h0 hlt
  refine ⟨fun _ => rfl, ?_, ?_, ?_, ?_, ?_⟩
  · rw [normalized_to_frequency, Real.rpow_zero, mul_one]
  · rw [normalized_to_frequency, Real.rpow_one, mul_comm, div_mul_cancel₀ _ h0.ne']
  · rw [frequency_to_normalized, clamp_id le_rfl hlt.le, div_self h0.ne', Real.log_one, zero_div]
  · rw [frequency_to_normalized, clamp_id hlt.le le_rfl, div_self hden.ne']
  · obtain ⟨hs1, hs2⟩ := sqrt_between h0 hlt
    have hsqrt : (0:ℝ) < Real.sqrt (min_freq * max_freq) :=
      lt_of_lt_of_le h0 hs1
    rw [frequency_to_normalized, clamp_id hs1 hs2,
      Real.log_div hsqrt.ne' h0.ne', Real.log_sqrt (by positivity),
      Real.log_mul h0.ne' hmax.ne', Real.log_div hmax.ne' h0.ne']
    have hne : Real.log max_freq - Real.log min_freq ≠ 0 :=
      sub_ne_zero.mpr (Real.log_lt_log h0 hlt).ne'
    field_simp
    ring

theorem c4_witness :
    (0:ℝ) < 10 ∧ (10:ℝ) < 22000 ∧
    normalized_to_frequency 0 10 22000 = 10 ∧
    normalized_to_frequency 1 10 22000 = 22000 ∧
    frequency_to_normalized 10 10 22000 = 0 ∧
    frequency_to_normalized 22000 10 22000 = 1 ∧
    frequency_to_normalized (Real.sqrt (10 * 22000)) 10 22000 = 0.5 := by
  have h := c4_frequency_mapping 10 22000 (by norm_num) (by norm_num)
  exact ⟨by norm_num, by norm_num, h.2.1, h.2.2.1, h.2.2.2.1, h.2.2.2.2.1, h.2.2.2.2.2⟩

/-- C5: linearToDb sends 0.85 to exactly 0 dB and 1.0 to exactly 6 dB,
and every input at or below the epsilon threshold 1e-8 (including 0)
is sent to negative infinity through the explicit silence branch. -/
theorem c5_linear_to_db_reference_points :
    linear_to_db 0.85 = ((0 : ℝ) : EReal) ∧
    linear_to_db 1 = ((6 : ℝ) : EReal) ∧
    (∀ linear : ℝ, linear ≤ 1e-8 → linear_to_db linear = ⊥) ∧
    linear_to_db 0 = ⊥ ∧
    linear_to_db 1e-8 = ⊥ := by
  refine ⟨?_, ?_, fun l hl => ?_, ?_, ?_⟩
  · rw [linear_to_db, if_neg (by norm_num), if_pos (by norm_num)]
    norm_num
  · rw [linear_to_db, if_neg (by norm_num), if_pos (by norm_num)]
    norm_num
  · rw [linear_to_db, if_pos hl]
  · rw [linear_to_db, if_pos (by norm_num)]
  · rw [linear_to_db, if_pos le_rfl]

theorem c5_witness : (0:ℝ) ≤ 1e-8 ∧ linear_to_db 0 = ⊥ :=
  ⟨by norm_num, c5_linear_to_db_reference_points.2.2.1 0 (by norm_num)⟩

/-- C6 counterexample: at the concrete input 1.0 — which is strictly
above the epsilon threshold — linearToDb returns 6 dB (the spec's own
headroom ceiling, checked by tests/test_linear_to_db.py), while the
claimed formula 20 * log10(linear/0.85) gives about 1.41 dB, so the
claim as stated is false. -/
theorem c6_counterexample :
    (1e-8 : ℝ) < 1 ∧
    linear_to_db 1 ≠ ((20 * Real.logb 10 (1 / 0.85) : ℝ) : EReal) := by
  refine ⟨by norm_num, ?_⟩
  have h6 : linear_to_db 1 = ((6 : ℝ) : EReal) := by
    rw [linear_to_db, if_neg (by norm_num), if_pos (by norm_num)]
    norm_num
  rw [h6]
  intro h
  have heq : (6 : ℝ) = 20 * Real.logb 10 (1 / 0.85) := EReal.coe_eq_coe_iff.mp h
  have h2017 : (1:ℝ) / 0.85 = 20 / 17 := by norm_num
  have hpow : ((20:ℝ) / 17) ^ (10:ℕ) < (10:ℝ) ^ (3:ℕ) := by norm_num
  have hlog := Real.log_lt_log (by positivity) hpow
  rw [Real.log_pow, Real.log_pow] at hlog
  have h10 : (0:ℝ) < Real.log 10 := Real.log_pos (by norm_num)
  have hlt : Real.logb 10 ((20:ℝ) / 17) < 3 / 10 := by
    rw [Real.logb, div_lt_iff₀ h10]
    push_cast at hlog
    linarith
  rw [h2017] at heq
  linarith

/-- C6 amended: for every linear input strictly above the epsilon
threshold 1e-8 and at most the 0.85 unity-gain reference, linearToDb
equals 20 * log10(linear / 0.85); above the reference the function
instead interpolates to the 6 dB headroom ceiling. -/
theorem c6_log_formula_up_to_reference (linear : ℝ)
    (h1 : 1e-8 < linear) (h2 : linear ≤ 0.85) :
    linear_to_db linear = ((20 * Real.logb 10 (linear / 0.85) : ℝ) : EReal) := by
  rw [linear_to_db, if_neg (not_le.mpr h1)]
  rcases lt_or_eq_of_le h2 with hlt | heq
  · rw [if_neg (not_le.mpr hlt)]
  · subst heq
    rw [if_pos le_rfl, div_self (by norm_num : (0.85:ℝ) ≠ 0), Real.logb_one]
    norm_num

theorem c6_witness :
    (1e-8 : ℝ) < 0.5 ∧ (0.5 : ℝ) ≤ 0.85 ∧
    linear_to_db 0.5 = ((20 * Real.logb 10 (0.5 / 0.85) : ℝ) : EReal) :=
  ⟨by norm_num, by norm_num, c6_log_formula_up_to_reference 0.5 (by norm_num) (by norm_num)⟩

lemma if_lt_eq_max (q : ℝ) : (if q < 0.1 then (0.1:ℝ) else q) = max 0.1 q := by
  rcases le_or_lt (0.1:ℝ) q with h | h
  · rw [if_neg (not_lt.mpr h), max_eq_right h]
  · rw [if_pos h, max_eq_left h.le]

lemma if_gt_eq_min (x : ℝ) : (if x > 18.0 then (18.0:ℝ) else x) = min 18.0 x := by
  rcases le_or_lt x (18.0:ℝ) with h | h
  · rw [if_neg (not_lt.mpr h), min_eq_right h]
  · rw [if_pos h, min_eq_left h.le]

lemma proposed_q_to_norm_eq (q : ℝ) :
    proposed_q_to_norm q =
      (Real.logb 10 (min 18.0 (max 0.1 q)) - Real.logb 10 0.1) /
        (Real.logb 10 18.0 - Real.logb 10 0.1) := by
  simp only [proposed_q_to_norm, if_lt_eq_max, if_gt_eq_min]

lemma q_denom_pos : 0 < Real.logb 10 18.0 - Real.logb 10 0.1 :=
  sub_pos.mpr (Real.logb_lt_logb (by norm_num) (by norm_num) (by norm_num))

lemma q_clamp_lb (q : ℝ) : (0.1:ℝ) ≤ min 18.0 (max 0.1 q) :=
  le_min (by norm_num) (le_max_left _ _)

lemma q_clamp_pos (q : ℝ) : (0:ℝ) < min 18.0 (max 0.1 q) :=
  lt_of_lt_of_le (by norm_num) (q_clamp_lb q)

lemma freq_round_trip {min_freq max_freq freq : ℝ}
    (h0 : 0 < min_freq) (hlt : min_freq < max_freq)
    (hf1 : min_freq ≤ freq) (hf2 : freq ≤ max_freq) :
    normalized_to_frequency (frequency_to_normalized freq min_freq max_freq)
      min_freq max_freq = freq := by
  have hfpos : 0 < freq := lt_of_lt_of_le h0 hf1
  have hb0 : 0 < max_freq / min_freq := div_pos (h0.trans hlt) h0
  have hb1 : max_freq / min_freq ≠ 1 := ((one_lt_div h0).mpr hlt).ne'
  rw [frequency_to_normalized, clamp_id hf1 hf2, normalized_to_frequency,
    Real.log_div_log, Real.rpow_logb hb0 hb1 (div_pos hfpos h0),
    mul_comm, div_mul_cancel₀ _ h0.ne']

lemma q_ratio_as_logb (q : ℝ) (hq : 0 < q) :
    (Real.logb 10 q - Real.logb 10 0.1) / (Real.logb 10 18.0 - Real.logb 10 0.1) =
      Real.logb (18.0 / 0.1) (q / 0.1) := by
  have h10 : Real.log 10 ≠ 0 := (Real.log_pos (by norm_num)).ne'
  simp only [Real.logb]
  rw [div_sub_div_same, div_sub_div_same, div_div_div_cancel_right₀ h10,
    Real.log_div hq.ne' (by norm_num), Real.log_div (by norm_num) (by norm_num)]

lemma q_round_trip {q : ℝ} (hq1 : 0.1 ≤ q) (hq2 : q ≤ 18.0) :
    normalized_to_q (proposed_q_to_norm q) = q := by
  have hq0 : (0:ℝ) < q := lt_of_lt_of_le (by norm_num) hq1
  rw [proposed_q_to_norm_eq, max_eq_right hq1, min_eq_right hq2,
    q_ratio_as_logb q hq0, normalized_to_q,
    Real.rpow_logb (by norm_num) (by norm_num) (by positivity),
    mul_comm, div_mul_cancel₀ _ (by norm_num : (0.1:ℝ) ≠ 0)]

lemma freq_to_norm_monotone {min_freq max_freq : ℝ}
    (h0 : 0 < min_freq) (hlt : min_freq < max_freq) :
    Monotone (fun f => frequency_to_normalized f min_freq max_freq) := by
  intro a b hab
  have hden := log_ratio_pos h0 hlt
  have hca : 0 < max min_freq (min max_freq a) :=
    lt_of_lt_of_le h0 (le_max_left _ _)
  have hcc : max min_freq (min max_freq a) ≤ max min_freq (min max_freq b) :=
    max_le_max le_rfl (min_le_min le_rfl hab)
  have hlog : Real.log (max min_freq (min max_freq a) / min_freq) ≤
      Real.log (max min_freq (min max_freq b) / min_freq) :=
    Real.log_le_log (div_pos hca h0) ((div_le_div_iff_of_pos_right h0).mpr hcc)
  exact (div_le_div_iff_of_pos_right hden).mpr hlog

lemma norm_to_freq_strictMono {min_freq max_freq : ℝ}
    (h0 : 0 < min_freq) (hlt : min_freq < max_freq) :
    StrictMono (fun n => normalized_to_frequency n min_freq max_freq) := by
  intro a b hab
  have hb1 : 1 < max_freq / min_freq := (one_lt_div h0).mpr hlt
  exact mul_lt_mul_of_pos_left (Real.rpow_lt_rpow_of_exponent_lt hb1 hab) h0

lemma q_to_norm_monotone : Monotone proposed_q_to_norm := by
  intro a b hab
  rw [proposed_q_to_norm_eq, proposed_q_to_norm_eq]
  have hcc : min 18.0 (max 0.1 a) ≤ min 18.0 (max 0.1 b) :=
    min_le_min le_rfl (max_le_max le_rfl hab)
  have hlog : Real.logb 10 (min 18.0 (max 0.1 a)) ≤ Real.logb 10 (min 18.0 (max 0.1 b)) :=
    Real.logb_le_logb_of_le (by norm_num) (q_clamp_pos a) hcc
  exact (div_le_div_iff_of_pos_right q_denom_pos).mpr (sub_le_sub_right hlog _)

lemma norm_to_q_strictMono : StrictMono normalized_to_q := by
  intro a b hab
  have hb1 : (1:ℝ) < 18.0 / 0.1 := by norm_num
  exact mul_lt_mul_of_pos_left (Real.rpow_lt_rpow_of_exponent_lt hb1 hab) (by norm_num)

lemma q_norm_bounds (q : ℝ) :
    0 ≤ proposed_q_to_norm q ∧ proposed_q_to_norm q ≤ 1 := by
  rw [proposed_q_to_norm_eq]
  have hlo : Real.logb 10 0.1 ≤ Real.logb 10 (min 18.0 (max 0.1 q)) :=
    Real.logb_le_logb_of_le (by norm_num) (by norm_num) (q_clamp_lb q)
  have hhi : Real.logb 10 (min 18.0 (max 0.1 q)) ≤ Real.logb 10 18.0 :=
    Real.logb_le_logb_of_le (by norm_num) (q_clamp_pos q) (min_le_left _ _)
  constructor
  · exact div_nonneg (sub_nonneg.mpr hlo) q_denom_pos.le
  · rw [div_le_one q_denom_pos]
    exact sub_le_sub_right hhi _

/-- C7: the frequency pair and the Q pair round-trip exactly (hence
within the 1e-4 relative tolerance) over their declared domains, and
each conversion function is monotonic over its declared domain. -/
theorem c7_round_trip_and_monotone :
    (∀ min_freq max_freq freq : ℝ, 0 < min_freq → min_freq < max_freq →
        min_freq ≤ freq → freq ≤ max_freq →
        normalized_to_frequency (frequency_to_normalized freq min_freq max_freq)
            min_freq max_freq = freq ∧
        |normalized_to_frequency (frequency_to_normalized freq min_freq max_freq)
            min_freq max_freq - freq| ≤ 1e-4 * freq) ∧
    (∀ q : ℝ, 0.1 ≤ q → q ≤ 18.0 →
        normalized_to_q (proposed_q_to_norm q) = q ∧
        |normalized_to_q (proposed_q_to_norm q) - q| ≤ 1e-4 * q) ∧
    (∀ min_freq max_freq : ℝ, 0 < min_freq → min_freq < max_freq →
        Monotone (fun f => frequency_to_normalized f min_freq max_freq)) ∧
    (∀ min_freq max_freq : ℝ, 0 < min_freq → min_freq < max_freq →
        StrictMono (fun n => normalized_to_frequency n min_freq max_freq)) ∧
    Monotone proposed_q_to_norm ∧
    StrictMono normalized_to_q := by
  refine ⟨?_, ?_, fun a b h0 hlt => freq_to_norm_monotone h0 hlt,
    fun a b h0 hlt => norm_to_freq_strictMono h0 hlt,
    q_to_norm_monotone, norm_to_q_strictMono⟩
  · intro min_freq max_freq freq h0 hlt hf1 hf2
    have h := freq_round_trip h0 hlt hf1 hf2
    refine ⟨h, ?_⟩
    rw [h, sub_self, abs_zero]
    have : (0:ℝ) < freq := lt_of_lt_of_le h0 hf1
    positivity
  · intro q hq1 hq2
    have h := q_round_trip hq1 hq2
    refine ⟨h, ?_⟩
    rw [h, sub_self, abs_zero]
    have : (0:ℝ) < q := lt_of_lt_of_le (by norm_num) hq1
    positivity

theorem c7_witness :
    (0:ℝ) < 10 ∧ (10:ℝ) < 22000 ∧ (10:ℝ) ≤ 100 ∧ (100:ℝ) ≤ 22000 ∧
    normalized_to_frequency (frequency_to_normalized 100 10 22000) 10 22000 = 100 ∧
    (0.1:ℝ) ≤ 1 ∧ (1:ℝ) ≤ 18.0 ∧
    normalized_to_q (proposed_q_to_norm 1) = 1 :=
  ⟨by norm_num, by norm_num, by norm_num, by norm_num,
   (c7_round_trip_and_monotone.1 10 22000 100 (by norm_num) (by norm_num)
      (by norm_num) (by norm_num)).1,
   by norm_num, by norm_num,
   (c7_round_trip_and_monotone.2.1 1 (by norm_num) (by norm_num)).1⟩

/-- C8: the Q normalization clamps its input to the bounds 0.1 and 18.0
before the log ratio, so every input below 0.1 yields exactly 0 and
every input above 18.0 yields exactly 1; the function is total, so no
domain error can arise. -/
theorem c8_q_clamp_saturation :
    (∀ q : ℝ, q < 0.1 → proposed_q_to_norm q = 0) ∧
    (∀ q : ℝ, 18.0 < q → proposed_q_to_norm q = 1) := by
  constructor
  · intro q hq
    rw [proposed_q_to_norm_eq, max_eq_left hq.le,
      min_eq_right (by norm_num : (0.1:ℝ) ≤ 18.0), sub_self, zero_div]
  · intro q hq
    rw [proposed_q_to_norm_eq,
      max_eq_right (le_trans (by norm_num) hq.le), min_eq_left hq.le,
      div_self q_denom_pos.ne']

theorem c8_witness :
    (0.05:ℝ) < 0.1 ∧ proposed_q_to_norm 0.05 = 0 ∧
    (18.0:ℝ) < 20 ∧ proposed_q_to_norm 20 = 1 :=
  ⟨by norm_num, c8_q_clamp_saturation.1 0.05 (by norm_num),
   by norm_num, c8_q_clamp_saturation.2 20 (by norm_num)⟩

/-- C10: the standalone Q normalization proposed_q_to_norm is total on
the nonnegative reals, lands in the closed interval from 0 to 1 there,
and is monotonically non-decreasing. -/
theorem c10_q_norm_bounded_and_monotone :
    (∀ q : ℝ, 0 ≤ q → 0 ≤ proposed_q_to_norm q ∧ proposed_q_to_norm q ≤ 1) ∧
    (∀ a b : ℝ, 0 ≤ a → a ≤ b → proposed_q_to_norm a ≤ proposed_q_to_norm b) :=
  ⟨fun q _ => q_norm_bounds q, fun a b _ hab => q_to_norm_monotone hab⟩

theorem c10_witness :
    ((0:ℝ) ≤ 5 ∧ 0 ≤ proposed_q_to_norm 5 ∧ proposed_q_to_norm 5 ≤ 1) ∧
    ((0:ℝ) ≤ 2 ∧ (2:ℝ) ≤ 7 ∧ proposed_q_to_norm 2 ≤ proposed_q_to_norm 7) :=
  ⟨⟨by norm_num, (c10_q_norm_bounded_and_monotone.1 5 (by norm_num)).1,
    (c10_q_norm_bounded_and_monotone.1 5 (by norm_num)).2⟩,
   ⟨by norm_num, by norm_num,
    c10_q_norm_bounded_and_monotone.2 2 7 (by norm_num) (by norm_num)⟩⟩
